import Mathlib

/-!
Verification development for the archetype-based ECS storage core of the
`nicopap/bevy` repository, covering the reflection façade
(`crates/bevy_ecs/src/reflect/component.rs`), the batch-spawn iterator
(`crates/bevy_ecs/src/world/spawn_batch.rs`) and scene writing
(`crates/bevy_scene/src/scene.rs`).

Modelling conventions:
* machine values stored in component columns are type-erased; we model the
  erased payload as `Nat` (`Value`), since the façade never inspects it beyond
  casts that preserve the value;
* Rust panics (`unwrap`, `expect`, `todo!`) are modelled as explicit
  `PanicKind` error values in an `Except`;
* code of the repository that is not part of the reviewed source tree
  (the `World` internals, the entity allocator, `EntityRef::get_by_id`,
  `ReflectResource::copy`, …) is modelled from the specification; each such
  definition says so in its doc comment.
-/

set_option autoImplicit false

/-- Erased component payload; the reflection façade treats component data as
an opaque value that can only be cast (identity at this abstraction) and
compared. -/
abbrev Value := Nat

/-- Opaque numeric component id assigned by the component registry. -/
abbrev ComponentId := Nat

/-- Stable identity of a Rust type, key of the external type registry. -/
abbrev TypeId := Nat

/-- Entity handle: `{index: u32, generation: u32}` as in the spec data model. -/
structure Entity where
  index : Nat
  generation : Nat
deriving DecidableEq, Repr

/-- Kinds of Rust panics that the reflection façade can raise. -/
inductive PanicKind where
  /-- An `Option::unwrap` on `None` (used by `component_id` and by `apply`). -/
  | unwrapNone
  /-- The `todo!()` macro (used by `ReflectComponent::remove`). -/
  | todoNotImplemented
deriving DecidableEq, Repr

/-- Modelled from the spec: the Component Registry, mapping component type →
opaque numeric id (`Components` in the source; not part of the reviewed
tree). -/
structure Components where
  ids : List (TypeId × ComponentId)
deriving DecidableEq, Repr

/-- Modelled from the spec: `Components::component_id::<C>()` — resolves the
component id registered for a type in this world, `none` when the type was
never registered here. -/
def Components.component_id (cs : Components) (t : TypeId) : Option ComponentId :=
  cs.ids.lookup t

/-- Modelled from the spec: the state of a `World` as seen by the reflection
façade — the component registry together with the contents of the Location
Table and Archetype Tables, presented extensionally as an association of
(entity, component id) slots to stored values. -/
structure RWorld where
  components : Components
  comps : List ((Entity × ComponentId) × Value)
deriving DecidableEq, Repr

/-- Modelled from the spec: `EntityRef::get_by_id` — looks up the entity's
column slot via the Location Table and Archetype Table, returning the stored
value iff the entity currently has that component. -/
def RWorld.get_by_id (w : RWorld) (e : Entity) (id : ComponentId) : Option Value :=
  w.comps.lookup (e, id)

/-- Whether the entity currently has a component of the given type in this
world: the type resolves to a component id and the entity's slot for that id
is occupied. -/
def RWorld.hasOfType (w : RWorld) (e : Entity) (t : TypeId) : Bool :=
  match w.components.component_id t with
  | none => false
  | some cid => (w.get_by_id e cid).isSome

/-- Overwrite the value stored in an (entity, component id) slot, leaving the
slot set unchanged (models a write through a mutable column pointer). -/
def RWorld.setComp (w : RWorld) (e : Entity) (cid : ComponentId) (v : Value) : RWorld :=
  { w with comps := w.comps.map (fun p => if p.1 = (e, cid) then ((e, cid), v) else p) }

/-- Field-by-field copy performed by `dyn Reflect::apply(field)`: at the
erased-value granularity the target takes the source's value. -/
def reflectApply (_target src : Value) : Value :=
  src

/-- The raw function pointers making up a `ReflectComponent`
(`ReflectComponentFns` in the source): resolve the component id from a world's
registry (may panic), and cast raw pointers to typed references (modelled as
value maps). -/
structure ReflectComponentFns where
  component_id : Components → Except PanicKind ComponentId
  from_ptr : Value → Value
  from_ptr_mut : Value → Value

/-- A struct used to operate on reflected components of a type; wraps a
`ReflectComponentFns` (the source's newtype `ReflectComponent(ReflectComponentFns)`). -/
structure ReflectComponent where
  fns : ReflectComponentFns

/-- The `FromType<C> for ReflectComponent` implementation: `component_id` is
`|components| components.component_id::<C>().unwrap()` — the unwrap panics
when the type is not registered in that world's component registry — and the
pointer casts are identities on the erased value. -/
def ReflectComponent.fromType (t : TypeId) : ReflectComponent :=
  ⟨{ component_id := fun cs =>
       match cs.component_id t with
       | some id => .ok id
       | none => .error .unwrapNone,
     from_ptr := fun v => v,
     from_ptr_mut := fun v => v }⟩

/-- The source's `ReflectComponent::reflect`: resolve the component id (this
can panic via the `unwrap` in `component_id`), then `entity.get_by_id(id)?`
(`none` when the component is absent), then cast via `from_ptr`. -/
def ReflectComponent.reflect (self : ReflectComponent) (w : RWorld) (e : Entity) :
    Except PanicKind (Option Value) :=
  match self.fns.component_id w.components with
  | .error p => .error p
  | .ok cid =>
    match w.get_by_id e cid with
    | none => .ok none
    | some v => .ok (some (self.fns.from_ptr v))

/-- The source's `ReflectComponent::reflect_mut`: same resolution as `reflect`
but casting via `from_ptr_mut`; we model the mutable borrow by its current
value (writes are modelled in `apply`). -/
def ReflectComponent.reflect_mut (self : ReflectComponent) (w : RWorld) (e : Entity) :
    Except PanicKind (Option Value) :=
  match self.fns.component_id w.components with
  | .error p => .error p
  | .ok cid =>
    match w.get_by_id e cid with
    | none => .ok none
    | some v => .ok (some (self.fns.from_ptr_mut v))

/-- The source's `ReflectComponent::apply`: `self.reflect_mut(entity).unwrap()`
followed by `component.apply(field)`. The unwrap panics when `reflect_mut`
returns `None` (component absent); the panic inside `component_id` (type not
registered) propagates as well. On success the slot's value is overwritten. -/
def ReflectComponent.apply (self : ReflectComponent) (w : RWorld) (e : Entity)
    (field : Value) : Except PanicKind RWorld :=
  match self.fns.component_id w.components with
  | .error p => .error p
  | .ok cid =>
    match w.get_by_id e cid with
    | none => .error .unwrapNone
    | some v => .ok (w.setComp e cid (reflectApply (self.fns.from_ptr_mut v) field))

/-- The source's `ReflectComponent::apply_or_insert`: the body is
`self.apply(entity, field)` (marked `TODO(bug): this doesn't insert`). -/
def ReflectComponent.apply_or_insert (self : ReflectComponent) (w : RWorld) (e : Entity)
    (field : Value) : Except PanicKind RWorld :=
  self.apply w e field

/-- The source's `ReflectComponent::insert`: the body is
`self.apply(entity, field)` (marked `TODO(bug): this doesn't insert`). -/
def ReflectComponent.insert (self : ReflectComponent) (w : RWorld) (e : Entity)
    (field : Value) : Except PanicKind RWorld :=
  self.apply w e field

/-- The source's `ReflectComponent::remove`: the body is
`todo!("TODO(bug): this doesn't remove anything")`, an unconditional panic. -/
def ReflectComponent.remove (_self : ReflectComponent) (_w : RWorld) (_e : Entity) :
    Except PanicKind RWorld :=
  .error .todoNotImplemented

/-! Helper lemmas about the reflection façade, shared by several results. -/

/-- Overwriting a slot never changes the set of (entity, component id) keys:
`setComp` maps every entry to an entry with the same key. -/
theorem RWorld.setComp_keys (w : RWorld) (e : Entity) (cid : ComponentId) (v : Value) :
    (w.setComp e cid v).comps.map Prod.fst = w.comps.map Prod.fst := by
  unfold RWorld.setComp
  simp only [List.map_map]
  refine List.map_congr_left ?_
  intro p _
  by_cases h : p.1 = (e, cid) <;> simp [h]

/-- Resolution of the bound type's component id, split by registration. -/
theorem ReflectComponent.fromType_component_id_of_some (t : TypeId) (cs : Components)
    (cid : ComponentId) (h : cs.component_id t = some cid) :
    (ReflectComponent.fromType t).fns.component_id cs = .ok cid := by
  simp [ReflectComponent.fromType, h]

/-- When the type is not registered in the world's component registry, the
stored `component_id` function pointer panics (the source unwraps `None`). -/
theorem ReflectComponent.fromType_component_id_of_none (t : TypeId) (cs : Components)
    (h : cs.component_id t = none) :
    (ReflectComponent.fromType t).fns.component_id cs = .error .unwrapNone := by
  simp [ReflectComponent.fromType, h]

/-- `apply` on an entity that does not have the bound component type panics:
either the `component_id` unwrap fires (type unregistered) or the unwrap of
`reflect_mut`'s `None` fires (component absent). -/
theorem ReflectComponent.apply_absent (t : TypeId) (w : RWorld) (e : Entity) (field : Value)
    (h : w.hasOfType e t = false) :
    (ReflectComponent.fromType t).apply w e field = .error .unwrapNone := by
  unfold RWorld.hasOfType at h
  cases hc : w.components.component_id t with
  | none =>
    simp [ReflectComponent.apply, ReflectComponent.fromType, hc]
  | some cid =>
    rw [hc] at h
    simp only [Option.isSome] at h
    cases hg : w.get_by_id e cid with
    | none => simp [ReflectComponent.apply, ReflectComponent.fromType, hc, hg]
    | some v => rw [hg] at h; simp at h

/-- `apply` on an entity that has the bound component overwrites the slot with
the field-copied value and succeeds. -/
theorem ReflectComponent.apply_present (t : TypeId) (w : RWorld) (e : Entity) (field : Value)
    (cid : ComponentId) (v : Value) (h1 : w.components.component_id t = some cid)
    (h2 : w.get_by_id e cid = some v) :
    (ReflectComponent.fromType t).apply w e field = .ok (w.setComp e cid field) := by
  simp [ReflectComponent.apply, ReflectComponent.fromType, h1, h2, reflectApply]

/-- Concrete world for the C1 counterexample: no component type registered,
no component data at all, so the entity has nothing. -/
def c1World : RWorld := ⟨⟨[]⟩, []⟩

/-- C1 counterexample: the claim says that for a façade-registered type, an
entity without the component gets `None` back from `reflect`, "not an error or
panic". In the world `c1World`, where the type is not registered in the
world's component registry (and the entity has no components at all),
`reflect` instead panics: the `component_id` function unwraps `None`. -/
theorem c1_reflect_counterexample :
    c1World.comps = [] ∧
    c1World.components.component_id 0 = none ∧
    (ReflectComponent.fromType 0).reflect c1World ⟨0, 0⟩ = .error .unwrapNone :=
  ⟨rfl, rfl, rfl⟩

/-- C1 (amended): if the entity has a component of the façade's bound type
with value `v`, `reflect` returns `Some v`; if the type is registered in the
world's component registry but the entity lacks the component, `reflect`
returns `None`; if the type is not registered in that world, `reflect` panics
through the `unwrap` in the stored `component_id` function. -/
theorem c1_reflect_roundtrip_amended (t : TypeId) (w : RWorld) (e : Entity) :
    (∀ cid v, w.components.component_id t = some cid → w.get_by_id e cid = some v →
      (ReflectComponent.fromType t).reflect w e = .ok (some v)) ∧
    (∀ cid, w.components.component_id t = some cid → w.get_by_id e cid = none →
      (ReflectComponent.fromType t).reflect w e = .ok none) ∧
    (w.components.component_id t = none →
      (ReflectComponent.fromType t).reflect w e = .error .unwrapNone) := by
  refine ⟨?_, ?_, ?_⟩
  · intro cid v h1 h2
    simp [ReflectComponent.reflect, ReflectComponent.fromType, h1, h2]
  · intro cid h1 h2
    simp [ReflectComponent.reflect, ReflectComponent.fromType, h1, h2]
  · intro h
    simp [ReflectComponent.reflect, ReflectComponent.fromType, h]

/-- Concrete world for the C1 witness: type 3 registered with component id 0,
entity (0,0) holds value 42, entity (1,0) holds nothing. -/
def c1WitWorld : RWorld := ⟨⟨[(3, 0)]⟩, [((⟨0, 0⟩, 0), 42)]⟩

/-- Witness for the amended C1 statement at a concrete world: the present
component reads back as its value, the absent one as `None`. -/
theorem c1_reflect_roundtrip_amended_witness :
    (ReflectComponent.fromType 3).reflect c1WitWorld ⟨0, 0⟩ = .ok (some 42) ∧
    (ReflectComponent.fromType 3).reflect c1WitWorld ⟨1, 0⟩ = .ok none :=
  ⟨(c1_reflect_roundtrip_amended 3 c1WitWorld ⟨0, 0⟩).1 0 42 rfl rfl,
   (c1_reflect_roundtrip_amended 3 c1WitWorld ⟨1, 0⟩).2.1 0 rfl rfl⟩

/-- Concrete world for the C8 counterexample: type 5 is registered (id 0) and
entity (1,0) holds a value for it, but type 9 is not registered. -/
def c8World : RWorld := ⟨⟨[(5, 0)]⟩, [((⟨1, 0⟩, 0), 7)]⟩

/-- C8 counterexample: the claim says a read through a façade whose bound type
is not registered in the queried world's component registry returns an empty
result and never panics. For the unregistered type 9 in `c8World`, `reflect`
panics instead (the `component_id` unwrap fires). -/
theorem c8_unregistered_counterexample :
    c8World.components.component_id 9 = none ∧
    (ReflectComponent.fromType 9).reflect c8World ⟨1, 0⟩ = .error .unwrapNone :=
  ⟨rfl, rfl⟩

/-- C8 (amended): when the façade's bound type is not registered in the
queried world's component registry, the read operations `reflect` and
`reflect_mut` panic through the `unwrap` inside the stored `component_id`
function; the empty result `None` is only produced when the type is registered
and the entity merely lacks the component. -/
theorem c8_unregistered_read_amended (t : TypeId) (w : RWorld) (e : Entity) :
    (w.components.component_id t = none →
      (ReflectComponent.fromType t).reflect w e = .error .unwrapNone ∧
      (ReflectComponent.fromType t).reflect_mut w e = .error .unwrapNone) ∧
    (∀ cid, w.components.component_id t = some cid → w.get_by_id e cid = none →
      (ReflectComponent.fromType t).reflect w e = .ok none ∧
      (ReflectComponent.fromType t).reflect_mut w e = .ok none) := by
  constructor
  · intro h
    constructor <;>
      simp [ReflectComponent.reflect, ReflectComponent.reflect_mut,
        ReflectComponent.fromType, h]
  · intro cid h1 h2
    constructor <;>
      simp [ReflectComponent.reflect, ReflectComponent.reflect_mut,
        ReflectComponent.fromType, h1, h2]

/-- Witness for the amended C8 statement at concrete inputs: reading the
unregistered type 9 panics, reading the registered type 5 on an entity without
it yields `None`. -/
theorem c8_unregistered_read_amended_witness :
    (ReflectComponent.fromType 9).reflect c8World ⟨2, 0⟩ = .error .unwrapNone ∧
    (ReflectComponent.fromType 5).reflect c8World ⟨2, 0⟩ = .ok none :=
  ⟨((c8_unregistered_read_amended 9 c8World ⟨2, 0⟩).1 rfl).1,
   ((c8_unregistered_read_amended 5 c8World ⟨2, 0⟩).2 0 rfl rfl).1⟩

/-- C9: for every entity that does not currently have the façade's bound
component type, `ReflectComponent::apply` panics — either unwrapping the
`None` returned by `reflect_mut` (component absent) or inside the
`component_id` unwrap (type unregistered) — rather than returning an empty
result or an error value. -/
theorem c9_apply_absent_panics (t : TypeId) (w : RWorld) (e : Entity) (field : Value)
    (h : w.hasOfType e t = false) :
    (ReflectComponent.fromType t).apply w e field = .error .unwrapNone :=
  ReflectComponent.apply_absent t w e field h

/-- Concrete world for the C9 witness: type 2 registered with component id 4,
but no entity holds any component. -/
def c9World : RWorld := ⟨⟨[(2, 4)]⟩, []⟩

/-- Witness for C9: applying through the façade of type 2 to the component-less
entity (0,0) panics. -/
theorem c9_apply_absent_panics_witness :
    (ReflectComponent.fromType 2).apply c9World ⟨0, 0⟩ 11 = .error .unwrapNone :=
  c9_apply_absent_panics 2 c9World ⟨0, 0⟩ 11 rfl

/-- Concrete world for C3: type 0 registered with component id 0, entity (0,0)
exists but holds no component of that type. -/
def c3World : RWorld := ⟨⟨[(0, 0)]⟩, []⟩

/-- C3: the claim (matching the spec's stated intent and the source's own
`TODO(bug)` comment) is that `insert` adds the component when absent. Evaluating
the code at the failing input: on `c3World`, where entity (0,0) lacks the
component of the registered type 0, `insert` panics through `apply`'s unwrap
instead of performing the archetype transition that adds the component. -/
theorem c3_insert_on_absent_panics :
    c3World.hasOfType ⟨0, 0⟩ 0 = false ∧
    (ReflectComponent.fromType 0).insert c3World ⟨0, 0⟩ 42 = .error .unwrapNone :=
  ⟨rfl, rfl⟩

/-- Concrete world for C4: type 0 registered with component id 0 and entity
(0,0) holds value 9 for it. -/
def c4World : RWorld := ⟨⟨[(0, 0)]⟩, [((⟨0, 0⟩, 0), 9)]⟩

/-- C4: the claim (matching the spec's stated intent and the source's own
`todo!("TODO(bug): this doesn't remove anything")`) is that `remove` performs a
transition removing the component. Evaluating the code at the failing input: on
`c4World`, where entity (0,0) does hold the component, `remove` unconditionally
panics via `todo!` and removes nothing. -/
theorem c4_remove_panics :
    c4World.hasOfType ⟨0, 0⟩ 0 = true ∧
    (ReflectComponent.fromType 0).remove c4World ⟨0, 0⟩ = .error .todoNotImplemented :=
  ⟨rfl, rfl⟩

/-- C5: in the reference implementation, `apply_or_insert` and `insert` are
definitionally the same operation as `apply`; a successful `apply` requires the
component to already be present and never changes the set of (entity,
component) slots (so no component is ever added); and `remove` always panics,
hence never removes a component. -/
theorem c5_reference_conflates_insert_with_apply (self : ReflectComponent) (t : TypeId)
    (w : RWorld) (e : Entity) (field : Value) :
    self.apply_or_insert w e field = self.apply w e field ∧
    self.insert w e field = self.apply w e field ∧
    (∀ w', (ReflectComponent.fromType t).apply w e field = .ok w' →
      w.hasOfType e t = true ∧ w'.comps.map Prod.fst = w.comps.map Prod.fst) ∧
    self.remove w e = .error .todoNotImplemented := by
  refine ⟨rfl, rfl, ?_, rfl⟩
  intro w' hok
  by_cases hHas : w.hasOfType e t = true
  · refine ⟨hHas, ?_⟩
    unfold RWorld.hasOfType at hHas
    cases hc : w.components.component_id t with
    | none => rw [hc] at hHas; simp at hHas
    | some cid =>
      rw [hc] at hHas
      simp only [Option.isSome] at hHas
      cases hg : w.get_by_id e cid with
      | none => rw [hg] at hHas; simp at hHas
      | some v =>
        rw [ReflectComponent.apply_present t w e field cid v hc hg] at hok
        injection hok with hw
        subst hw
        exact RWorld.setComp_keys w e cid field
  · have hf : w.hasOfType e t = false := by
      cases hb : w.hasOfType e t with
      | false => rfl
      | true => exact absurd hb hHas
    rw [ReflectComponent.apply_absent t w e field hf] at hok
    exact Except.noConfusion hok

/-- Concrete world for the C5 witness: type 1 registered with component id 2,
entity (0,0) holds value 5 for it. -/
def c5World : RWorld := ⟨⟨[(1, 2)]⟩, [((⟨0, 0⟩, 2), 5)]⟩

/-- Witness for C5 at a concrete world where `apply` succeeds: the conflated
operations agree with `apply`, the successful `apply` found the component
present without changing the slot set, and `remove` panics. -/
theorem c5_reference_conflates_insert_with_apply_witness :
    (ReflectComponent.fromType 1).insert c5World ⟨0, 0⟩ 8 =
      (ReflectComponent.fromType 1).apply c5World ⟨0, 0⟩ 8 ∧
    (ReflectComponent.fromType 1).apply_or_insert c5World ⟨0, 0⟩ 8 =
      (ReflectComponent.fromType 1).apply c5World ⟨0, 0⟩ 8 ∧
    (c5World.hasOfType ⟨0, 0⟩ 1 = true ∧
      (c5World.setComp ⟨0, 0⟩ 2 8).comps.map Prod.fst = c5World.comps.map Prod.fst) ∧
    (ReflectComponent.fromType 1).remove c5World ⟨0, 0⟩ = .error .todoNotImplemented := by
  have h := c5_reference_conflates_insert_with_apply (ReflectComponent.fromType 1) 1
    c5World ⟨0, 0⟩ 8
  exact ⟨h.2.1, h.1, h.2.2.1 (c5World.setComp ⟨0, 0⟩ 2 8) rfl, h.2.2.2⟩

/-! Model of the batch-spawn iterator (`world/spawn_batch.rs`). The `World`
internals it drives (entity allocator, bundle spawner) are not part of the
reviewed tree and are modelled from the spec; the iterator protocol itself
(`new`/`new_dynamic`, `next`, `Drop`) follows the source. Bundles are erased
row payloads (`Value`). -/

/-- Modelled from the spec: the Entity Allocator — issues unique identifiers
(index + generation) in O(1), recycling freed slots with bumped generation
(the free list stores the slot with its already-bumped generation) or handing
out a fresh index; tracks outstanding reservations (`pending`) reconciled by
`flush`, and capacity pre-grown by `reserve`. -/
structure Entities where
  freelist : List Entity
  nextIndex : Nat
  pending : Nat
  capacity : Nat
deriving DecidableEq, Repr

/-- Modelled from the spec: `alloc() -> Entity` — pop a recycled
generation-bumped slot, else a fresh index with generation 0. -/
def Entities.alloc (es : Entities) : Entity × Entities :=
  match es.freelist with
  | e :: rest => (e, { es with freelist := rest })
  | [] =>
    ({ index := es.nextIndex, generation := 0 }, { es with nextIndex := es.nextIndex + 1 })

/-- Modelled from the spec: `reserve(n)` pre-grows internal capacity so `n`
subsequent `alloc` calls do not reallocate. -/
def Entities.reserve (es : Entities) (n : Nat) : Entities :=
  { es with capacity := es.capacity + n }

/-- Modelled from the spec: `World::flush` reconciles all outstanding
("pending") entity allocations into the live allocator state. -/
def Entities.flush (es : Entities) : Entities :=
  { es with pending := 0 }

/-- Allocator well-formedness: recycled slots are pairwise distinct and their
indices lie below the fresh-index watermark, so recycled and fresh handles can
never collide. -/
def Entities.WF (es : Entities) : Prop :=
  es.freelist.Nodup ∧ ∀ e ∈ es.freelist, e.index < es.nextIndex

/-- Allocate `n` entities in sequence, returning them in allocation order. -/
def Entities.allocList : Entities → Nat → List Entity × Entities
  | es, 0 => ([], es)
  | es, n + 1 =>
    let e := (es.alloc).1
    let rest := ((es.alloc).2.allocList n)
    (e :: rest.1, rest.2)

/-- State of the world as seen by the batch spawner: the entity allocator, the
rows of the target archetype's table (entity identity paired with its bundle,
in row order), and the pre-grown column storage capacity. The allocator and
row storage are modelled from the spec. -/
structure SpawnWorld where
  entities : Entities
  rows : List (Entity × Value)
  storageCapacity : Nat
deriving DecidableEq, Repr

/-- Modelled from the spec: `BundleSpawner::spawn_non_existent` writes one
full row for a reserved-but-not-yet-placed entity id at the end of the target
archetype's table. -/
def SpawnWorld.spawn_non_existent (w : SpawnWorld) (e : Entity) (b : Value) : SpawnWorld :=
  { w with rows := w.rows ++ [(e, b)] }

/-- Modelled from the spec: `BundleSpawner::reserve_storage(n)` pre-grows the
destination columns for `n` writes. -/
def SpawnWorld.reserve_storage (w : SpawnWorld) (n : Nat) : SpawnWorld :=
  { w with storageCapacity := w.storageCapacity + n }

/-- Observable steps performed by batch-spawn construction and iteration, used
to state when the flush and the bulk reservations happen. -/
inductive BatchOp where
  /-- The `world.flush()` call. -/
  | flush
  /-- The `bundles.init_info` call of the typed constructor. -/
  | initInfo
  /-- The `bundles.init_dynamic_info` call of the dynamic constructor. -/
  | initDynamicInfo (componentIds : List ComponentId)
  /-- The `world.entities.reserve(length)` bulk allocator reservation. -/
  | reserveEntities (n : Nat)
  /-- The `spawner.reserve_storage(length)` bulk column reservation. -/
  | reserveStorage (n : Nat)
  /-- The per-element `self.spawner.entities.alloc()`. -/
  | allocEntity (e : Entity)
  /-- The per-element `self.spawner.spawn_non_existent(entity, bundle)`. -/
  | spawnRow (e : Entity)
deriving DecidableEq, Repr

/-- Whether a step is the flush or one of the two bulk reservations. -/
def BatchOp.isBulkSetup : BatchOp → Bool
  | .flush => true
  | .reserveEntities _ => true
  | .reserveStorage _ => true
  | _ => false

/-- Whether a step is the flush. -/
def BatchOp.isFlush : BatchOp → Bool
  | .flush => true
  | _ => false

/-- Whether a step is the bulk allocator reservation. -/
def BatchOp.isReserveEntities : BatchOp → Bool
  | .reserveEntities _ => true
  | _ => false

/-- Whether a step is the bulk column-storage reservation. -/
def BatchOp.isReserveStorage : BatchOp → Bool
  | .reserveStorage _ => true
  | _ => false

/-- The source's `SpawnBatchIter`: the remaining input bundles and the spawner
bound to its exclusive borrow of the world. -/
structure SpawnBatchIter where
  inner : List Value
  world : SpawnWorld
deriving DecidableEq, Repr

/-- The source's `SpawnBatchIter::new`: flush the world, read the size hint
(exact for a list), `init_info`, bulk-reserve the allocator, build the spawner
and bulk-reserve column storage — all before the iterator is returned. The
second component records the steps performed. -/
def SpawnBatchIter.new (world : SpawnWorld) (iter : List Value) :
    SpawnBatchIter × List BatchOp :=
  let w1 := { world with entities := world.entities.flush }
  let length := iter.length
  let w2 := { w1 with entities := w1.entities.reserve length }
  let w3 := w2.reserve_storage length
  (⟨iter, w3⟩, [.flush, .initInfo, .reserveEntities length, .reserveStorage length])

/-- The source's `SpawnBatchIter::new_dynamic`: identical protocol to `new`
except that the bundle layout comes from `init_dynamic_info` on the
caller-chosen component ids. -/
def SpawnBatchIter.new_dynamic (world : SpawnWorld) (componentIds : List ComponentId)
    (iter : List Value) : SpawnBatchIter × List BatchOp :=
  let w1 := { world with entities := world.entities.flush }
  let length := iter.length
  let w2 := { w1 with entities := w1.entities.reserve length }
  let w3 := w2.reserve_storage length
  (⟨iter, w3⟩, [.flush, .initDynamicInfo componentIds, .reserveEntities length,
    .reserveStorage length])

/-- The source's `Iterator::next`: take the next bundle (or stop), allocate one
entity id, write its row with `spawn_non_existent`, and return the id. The
third component records the steps performed by this call. -/
def SpawnBatchIter.next (it : SpawnBatchIter) :
    Option Entity × SpawnBatchIter × List BatchOp :=
  match it.inner with
  | [] => (none, it, [])
  | b :: rest =>
    let e := (it.world.entities.alloc).1
    let w1 := ({ it.world with entities := (it.world.entities.alloc).2 }).spawn_non_existent e b
    (some e, ⟨rest, w1⟩, [.allocEntity e, .spawnRow e])

/-- Drain the remaining bundles into the world one row at a time, exactly as
repeated `next` calls would. -/
def SpawnBatchIter.drainFrom : List Value → SpawnWorld → SpawnWorld × List BatchOp
  | [], w => (w, [])
  | b :: rest, w =>
    let e := (w.entities.alloc).1
    let w1 := ({ w with entities := (w.entities.alloc).2 }).spawn_non_existent e b
    ((SpawnBatchIter.drainFrom rest w1).1,
      [.allocEntity e, .spawnRow e] ++ (SpawnBatchIter.drainFrom rest w1).2)

/-- The source's `impl Drop for SpawnBatchIter` (`for _ in self {}`): exhaust
the iterator, spawning every remaining bundle. -/
def SpawnBatchIter.drop (it : SpawnBatchIter) : SpawnWorld × List BatchOp :=
  SpawnBatchIter.drainFrom it.inner it.world

/-- The drop drain is exactly the loop that keeps calling `next` until it
yields nothing. -/
theorem SpawnBatchIter.drop_eq_loop (it : SpawnBatchIter) :
    it.drop =
      match it.next with
      | (none, it2, ops) => (it2.world, ops)
      | (some _, it2, ops) => ((it2.drop).1, ops ++ (it2.drop).2) := by
  obtain ⟨inner, w⟩ := it
  cases inner with
  | nil => rfl
  | cons b rest => rfl

/-- Consume up to `k` elements of the iterator, returning the observed entity
ids, the remaining iterator, and the steps performed. -/
def SpawnBatchIter.consume : Nat → SpawnBatchIter → List Entity × SpawnBatchIter × List BatchOp
  | 0, it => ([], it, [])
  | k + 1, it =>
    match it.next with
    | (none, it2, ops) => ([], it2, ops)
    | (some e, it2, ops) =>
      let rest := SpawnBatchIter.consume k it2
      (e :: rest.1, rest.2.1, ops ++ rest.2.2)

/-- Every entity handed out during a run of allocations is either a recycled
slot from the starting free list or a fresh handle at or above the starting
fresh-index watermark. -/
theorem Entities.allocList_mem (es : Entities) (n : Nat) :
    ∀ e ∈ (es.allocList n).1, e ∈ es.freelist ∨ es.nextIndex ≤ e.index := by
  induction n generalizing es with
  | zero => intro e he; simp [Entities.allocList] at he
  | succ n ih =>
    intro e he
    cases hf : es.freelist with
    | nil =>
      simp only [Entities.allocList, Entities.alloc, hf, List.mem_cons] at he
      cases he with
      | inl h => subst h; right; exact Nat.le_refl _
      | inr h =>
        have h2 := ih _ e h
        simp only [hf] at h2
        cases h2 with
        | inl hh => exact absurd hh (List.not_mem_nil e)
        | inr hh => right; omega
    | cons f fs =>
      simp only [Entities.allocList, Entities.alloc, hf, List.mem_cons] at he
      cases he with
      | inl h => subst h; left; exact List.mem_cons_self _ _
      | inr h =>
        have h2 := ih _ e h
        simp only at h2
        cases h2 with
        | inl hh => left; exact List.mem_cons_of_mem f hh
        | inr hh => right; exact hh

/-- `alloc` preserves allocator well-formedness. -/
theorem Entities.alloc_wf (es : Entities) (h : es.WF) : (es.alloc).2.WF := by
  obtain ⟨hnd, hlt⟩ := h
  cases hf : es.freelist with
  | nil =>
    constructor
    · simp [Entities.alloc, hf]
    · intro e he
      simp [Entities.alloc, hf] at he
  | cons f fs =>
    rw [hf] at hnd
    constructor
    · simp only [Entities.alloc, hf]
      exact (List.nodup_cons.mp hnd).2
    · intro e he
      simp only [Entities.alloc, hf] at he ⊢
      exact hlt e (by rw [hf]; exact List.mem_cons_of_mem f he)

/-- Under well-formedness, the first allocated entity never reappears among
the following allocations. -/
theorem Entities.alloc_head_not_mem (es : Entities) (h : es.WF) (n : Nat) :
    (es.alloc).1 ∉ ((es.alloc).2.allocList n).1 := by
  obtain ⟨hnd, hlt⟩ := h
  cases hf : es.freelist with
  | nil =>
    intro hmem
    have h2 := Entities.allocList_mem (es.alloc).2 n (es.alloc).1 hmem
    simp only [Entities.alloc, hf] at h2
    cases h2 with
    | inl hh => exact List.not_mem_nil _ hh
    | inr hh => omega
  | cons f fs =>
    intro hmem
    have h2 := Entities.allocList_mem (es.alloc).2 n (es.alloc).1 hmem
    simp only [Entities.alloc, hf] at h2
    rw [hf] at hnd
    cases h2 with
    | inl hh => exact (List.nodup_cons.mp hnd).1 hh
    | inr hh =>
      have := hlt f (by rw [hf]; exact List.mem_cons_self f fs)
      omega

/-- Under well-formedness, a batch of allocations yields pairwise-distinct
entity handles. -/
theorem Entities.allocList_nodup (es : Entities) (h : es.WF) (n : Nat) :
    ((es.allocList n).1).Nodup := by
  induction n generalizing es with
  | zero => simp [Entities.allocList]
  | succ n ih =>
    simp only [Entities.allocList]
    exact List.nodup_cons.mpr
      ⟨Entities.alloc_head_not_mem es h n, ih _ (Entities.alloc_wf es h)⟩

/-- A batch of `n` allocations yields `n` entity handles. -/
theorem Entities.allocList_length (es : Entities) (n : Nat) :
    ((es.allocList n).1).length = n := by
  induction n generalizing es with
  | zero => rfl
  | succ n ih => simp only [Entities.allocList, List.length_cons, ih]

/-- Draining a bundle list appends one row per bundle — pairing the bundles in
input order with the entities allocated in sequence — and leaves the allocator
in the corresponding post-allocation state, touching no reserve. -/
theorem SpawnBatchIter.drainFrom_spec (bundles : List Value) (w : SpawnWorld) :
    (SpawnBatchIter.drainFrom bundles w).1.rows =
      w.rows ++ ((w.entities.allocList bundles.length).1.zip bundles) ∧
    (SpawnBatchIter.drainFrom bundles w).1.entities =
      (w.entities.allocList bundles.length).2 ∧
    (SpawnBatchIter.drainFrom bundles w).1.storageCapacity = w.storageCapacity := by
  induction bundles generalizing w with
  | nil => simp [SpawnBatchIter.drainFrom, Entities.allocList]
  | cons b rest ih =>
    obtain ⟨h1, h2, h3⟩ := ih (({ w with entities := (w.entities.alloc).2 }).spawn_non_existent
      (w.entities.alloc).1 b)
    refine ⟨?_, ?_, ?_⟩
    · simp only [SpawnBatchIter.drainFrom, Entities.allocList, List.length_cons, List.zip_cons_cons]
      rw [h1]
      simp [SpawnWorld.spawn_non_existent, List.append_assoc]
    · simp only [SpawnBatchIter.drainFrom, Entities.allocList, List.length_cons]
      rw [h2]
      rfl
    · simp only [SpawnBatchIter.drainFrom, List.length_cons]
      rw [h3]
      rfl

/-- Consuming any number of elements and then dropping the iterator drains the
whole input: the final world is the full drain of the input bundles, and the
consumed outputs are the corresponding prefix of the allocated entities. -/
theorem SpawnBatchIter.consume_drop (k : Nat) (it : SpawnBatchIter) :
    (((it.consume k).2.1).drop).1 = (SpawnBatchIter.drainFrom it.inner it.world).1 ∧
    (it.consume k).1 = ((it.world.entities.allocList it.inner.length).1).take k := by
  induction k generalizing it with
  | zero => simp [SpawnBatchIter.consume, SpawnBatchIter.drop]
  | succ k ih =>
    obtain ⟨inner, w⟩ := it
    cases inner with
    | nil =>
      simp [SpawnBatchIter.consume, SpawnBatchIter.next, SpawnBatchIter.drop,
        SpawnBatchIter.drainFrom, Entities.allocList]
    | cons b rest =>
      have h := ih ⟨rest, ({ w with entities := (w.entities.alloc).2 }).spawn_non_existent
        (w.entities.alloc).1 b⟩
      refine ⟨?_, ?_⟩
      · simp only [SpawnBatchIter.consume, SpawnBatchIter.next, SpawnBatchIter.drainFrom]
        exact h.1
      · simp only [SpawnBatchIter.consume, SpawnBatchIter.next, Entities.allocList,
          List.length_cons, List.take_succ_cons]
        rw [h.2]
        rfl

/-- C2: a batch-spawn run over `N` input bundles spawns exactly `N` rows,
appended to the table in input order with the `i`-th row pairing the `i`-th
allocated entity id with the `i`-th bundle; the `N` entity ids are pairwise
distinct; the consumer observes exactly the prefix of those ids in input
order; and however many elements `k` were consumed before the iterator is
dropped, the drop drain still spawns all remaining bundles. -/
theorem c2_spawn_batch_drain (it : SpawnBatchIter) (k : Nat)
    (hwf : it.world.entities.WF) :
    ((((it.consume k).2.1).drop).1).rows =
      it.world.rows ++ ((it.world.entities.allocList it.inner.length).1.zip it.inner) ∧
    ((it.world.entities.allocList it.inner.length).1).length = it.inner.length ∧
    ((it.world.entities.allocList it.inner.length).1).Nodup ∧
    (it.consume k).1 = ((it.world.entities.allocList it.inner.length).1).take k := by
  obtain ⟨hdrop, houts⟩ := SpawnBatchIter.consume_drop k it
  refine ⟨?_, Entities.allocList_length _ _, Entities.allocList_nodup _ hwf _, houts⟩
  rw [hdrop]
  exact (SpawnBatchIter.drainFrom_spec it.inner it.world).1

/-- Concrete iterator for the C2 witness: one recycled slot plus fresh indices
serve three bundles; one element is consumed before the drop. -/
def c2Iter : SpawnBatchIter :=
  ⟨[10, 20, 30], ⟨⟨[⟨0, 1⟩], 1, 0, 3⟩, [], 3⟩⟩

/-- Witness for C2 at a concrete batch: three bundles yield three distinct
entities in input order; after consuming one element, dropping the iterator
still spawns the other two rows. -/
theorem c2_spawn_batch_drain_witness :
    ((((c2Iter.consume 1).2.1).drop).1).rows =
      [(⟨0, 1⟩, 10), (⟨1, 0⟩, 20), (⟨2, 0⟩, 30)] ∧
    (c2Iter.consume 1).1 = [⟨0, 1⟩] ∧
    ((c2Iter.world.entities.allocList 3).1).Nodup := by
  have h := c2_spawn_batch_drain c2Iter 1 (by constructor <;> decide)
  refine ⟨?_, ?_, h.2.2.1⟩
  · rw [h.1]; rfl
  · rw [h.2.2.2]; rfl

/-- The per-element step `next` performs no flush and no bulk reservation. -/
theorem SpawnBatchIter.next_no_bulk (it : SpawnBatchIter) :
    ((it.next).2.2).countP (fun op => op.isBulkSetup) = 0 := by
  obtain ⟨inner, w⟩ := it
  cases inner <;> rfl

/-- The drop drain performs no flush and no bulk reservation. -/
theorem SpawnBatchIter.drainFrom_no_bulk (bundles : List Value) (w : SpawnWorld) :
    ((SpawnBatchIter.drainFrom bundles w).2).countP (fun op => op.isBulkSetup) = 0 := by
  induction bundles generalizing w with
  | nil => rfl
  | cons b rest ih =>
    simp only [SpawnBatchIter.drainFrom, List.countP_append, ih]
    rfl

/-- Consuming elements performs no flush and no bulk reservation. -/
theorem SpawnBatchIter.consume_no_bulk (k : Nat) (it : SpawnBatchIter) :
    ((it.consume k).2.2).countP (fun op => op.isBulkSetup) = 0 := by
  induction k generalizing it with
  | zero => rfl
  | succ k ih =>
    obtain ⟨inner, w⟩ := it
    cases inner with
    | nil => rfl
    | cons b rest =>
      simp only [SpawnBatchIter.consume, SpawnBatchIter.next, List.countP_append, ih]
      rfl

/-- C6: for both batch-spawn constructions (typed `new` and `new_dynamic`) the
flush and each of the two bulk reservations — allocator capacity and column
storage — are performed exactly once, as part of construction (which returns
the iterator before any element can be produced); no per-element `next` step,
and hence no run of consuming steps nor the drop drain, performs a flush or a
bulk reservation. -/
theorem c6_flush_and_reserve_once_per_batch (w : SpawnWorld) (bundles : List Value)
    (componentIds : List ComponentId) (it : SpawnBatchIter) (k : Nat) :
    (((SpawnBatchIter.new w bundles).2).countP (fun op => op.isFlush) = 1 ∧
     ((SpawnBatchIter.new w bundles).2).countP (fun op => op.isReserveEntities) = 1 ∧
     ((SpawnBatchIter.new w bundles).2).countP (fun op => op.isReserveStorage) = 1) ∧
    (((SpawnBatchIter.new_dynamic w componentIds bundles).2).countP
        (fun op => op.isFlush) = 1 ∧
     ((SpawnBatchIter.new_dynamic w componentIds bundles).2).countP
        (fun op => op.isReserveEntities) = 1 ∧
     ((SpawnBatchIter.new_dynamic w componentIds bundles).2).countP
        (fun op => op.isReserveStorage) = 1) ∧
    (((it.next).2.2).countP (fun op => op.isBulkSetup) = 0 ∧
     ((it.consume k).2.2).countP (fun op => op.isBulkSetup) = 0 ∧
     ((it.drop).2).countP (fun op => op.isBulkSetup) = 0) :=
  ⟨⟨rfl, rfl, rfl⟩, ⟨rfl, rfl, rfl⟩,
   SpawnBatchIter.next_no_bulk it, SpawnBatchIter.consume_no_bulk k it,
   SpawnBatchIter.drainFrom_no_bulk it.inner it.world⟩

/-! Model of `Scene::write_to_world_with` (`crates/bevy_scene/src/scene.rs`,
lines 203-277). The source world's storages, the destination `World` and the
two `copy` operations (`ReflectResource::copy`, `ReflectComponent::copy`) are
not part of the reviewed tree and are modelled from the spec; the loop
structure, lookup order and the three typed errors follow the source. The
trailing `map_all_entities` pass only rewrites entity-valued fields inside
already-copied data, so it is modelled as a no-op on this abstraction. -/

/-- Metadata the source world's component registry stores for a component id:
the type name reported in errors and, for components backed by a Rust type,
its type identity (`ComponentInfo::type_id` is an `Option`). -/
structure ComponentInfo where
  name : String
  type_id : Option TypeId
deriving DecidableEq, Repr

/-- Registration data for a type in the external type registry: whether
`registration.data::<ReflectComponent>()` and
`registration.data::<ReflectResource>()` are present. -/
structure Registration where
  hasReflectComponent : Bool
  hasReflectResource : Bool
deriving DecidableEq, Repr

/-- Modelled from the spec: the external, process-wide type registry keyed by
type identity (the `AppTypeRegistry` read guard). -/
structure TypeRegistry where
  regs : List (TypeId × Registration)
deriving DecidableEq, Repr

/-- Modelled from the spec: `TypeRegistry::get` — an opaque lookup returning
the registration for a type identity if present. -/
def TypeRegistry.get (r : TypeRegistry) (t : TypeId) : Option Registration :=
  r.regs.lookup t

/-- One archetype of the scene's source world as the write loop sees it: its
per-row entity identities and its exact component-id set. -/
structure SceneArchetype where
  entities : List Entity
  components : List ComponentId
deriving DecidableEq, Repr

/-- The scene's source world as consumed by `write_to_world_with`: the
resource component ids (`storages().resources.iter()`), the archetypes
(`archetypes().iter()`), and the component registry
(`components().get_info`). -/
structure SceneWorld where
  resources : List ComponentId
  archetypes : List SceneArchetype
  infos : List (ComponentId × ComponentInfo)
deriving DecidableEq, Repr

/-- Modelled from the spec: `Components::get_info` of the scene's source
world. -/
def SceneWorld.get_info (s : SceneWorld) (cid : ComponentId) : Option ComponentInfo :=
  s.infos.lookup cid

/-- The source's `SceneSpawnError` variants produced by
`write_to_world_with`, each naming the offending type. -/
inductive SceneSpawnError where
  | unregisteredType (type_name : String)
  | unregisteredComponent (type_name : String)
  | unregisteredResource (type_name : String)
deriving DecidableEq, Repr

/-- The destination `World` as mutated by the scene write, modelled from the
spec: spawned entity handles (with a fresh-index allocator), the set of copied
resources (by type identity) and copied components (destination entity paired
with type identity). -/
structure DestWorld where
  nextIndex : Nat
  entities : List Entity
  resources : List TypeId
  comps : List (Entity × TypeId)
deriving DecidableEq, Repr

/-- Modelled from the spec: `World::spawn_empty` on the destination world —
allocates a fresh entity handle with no components. -/
def DestWorld.spawn_empty (w : DestWorld) : Entity × DestWorld :=
  (⟨w.nextIndex, 0⟩,
    { w with nextIndex := w.nextIndex + 1, entities := w.entities ++ [⟨w.nextIndex, 0⟩] })

/-- The source's `InstanceInfo`: the map from scene entities to the entities
spawned for them in the destination world. -/
structure InstanceInfo where
  entity_map : List (Entity × Entity)
deriving DecidableEq, Repr

/-- Destination-world writes performed by the scene write, recorded in
execution order so that the non-atomicity of the operation can be stated. -/
inductive WriteEvent where
  /-- A `world.spawn_empty()` performed for a scene entity. -/
  | spawnedEmpty (e : Entity)
  /-- A `reflect_resource.copy(&self.world, world)` for the resource type. -/
  | copiedResource (t : TypeId)
  /-- A `reflect_component.copy(...)` onto the destination entity. -/
  | copiedComponent (e : Entity) (t : TypeId)
deriving DecidableEq, Repr

/-- How the scene write ends: with the instance info, with one of the three
typed `SceneSpawnError`s, or in a panic (the `expect`/`unwrap` calls on
component info). -/
inductive WriteOutcome where
  | ok (info : InstanceInfo)
  | err (e : SceneSpawnError)
  | panicked
deriving DecidableEq, Repr

/-- An abnormal exit of one of the write loops. -/
inductive WriteAbort where
  | err (e : SceneSpawnError)
  | panicked
deriving DecidableEq, Repr

/-- Convert a loop abort into the outcome of the whole operation. -/
def abortOutcome : WriteAbort → WriteOutcome
  | .err e => .err e
  | .panicked => .panicked

/-- The mutable state threaded through the write: the destination world, the
entity map under construction, and the ghost log of performed writes. -/
structure WriteState where
  dest : DestWorld
  emap : List (Entity × Entity)
  log : List WriteEvent
deriving DecidableEq, Repr

/-- The checks the resources loop performs for one resource id
(scene.rs:215-236), independent of the mutable state: `get_info(..).expect(..)`
(panic when missing), `type_id().expect(..)` (panic when missing), the
registry lookup — `UnregisteredType` naming the type when absent — and the
`ReflectResource` capability — `UnregisteredResource` naming the type when
absent; on success, the type id whose resource is copied. -/
def resourceStep (scene : SceneWorld) (reg : TypeRegistry) (cid : ComponentId) :
    Except WriteAbort TypeId :=
  match scene.get_info cid with
  | none => .error .panicked
  | some info =>
    match info.type_id with
    | none => .error .panicked
    | some tid =>
      match reg.get tid with
      | none => .error (.err (.unregisteredType info.name))
      | some r =>
        if r.hasReflectResource then .ok tid
        else .error (.err (.unregisteredResource info.name))

/-- The checks the per-entity component loop performs for one component id
(scene.rs:246-264), independent of the mutable state and of the destination
entity: `get_info(..).expect(..)`, `type_id().unwrap()`, the registry lookup —
`UnregisteredType` when absent — and the `ReflectComponent` capability —
`UnregisteredComponent` when absent; on success, the type id whose component
is copied. -/
def componentStep (scene : SceneWorld) (reg : TypeRegistry) (cid : ComponentId) :
    Except WriteAbort TypeId :=
  match scene.get_info cid with
  | none => .error .panicked
  | some info =>
    match info.type_id with
    | none => .error .panicked
    | some tid =>
      match reg.get tid with
      | none => .error (.err (.unregisteredType info.name))
      | some r =>
        if r.hasReflectComponent then .ok tid
        else .error (.err (.unregisteredComponent info.name))

/-- Whether a step succeeds. -/
def stepOk (x : Except WriteAbort TypeId) : Bool :=
  match x with
  | .ok _ => true
  | .error _ => false

/-- The resources loop of `write_to_world_with` (scene.rs:215-238): run the
per-resource checks of `resourceStep`, aborting on their first failure —
keeping the state reached so far, since the Rust world is mutated in place —
and otherwise performing `reflect_resource.copy`. -/
def writeResourcesLoop (scene : SceneWorld) (reg : TypeRegistry) :
    List ComponentId → WriteState → Except (WriteAbort × WriteState) WriteState
  | [], s => .ok s
  | cid :: rest, s =>
    match resourceStep scene reg cid with
    | .error ab => .error (ab, s)
    | .ok tid =>
      writeResourcesLoop scene reg rest
        { dest := { s.dest with resources := s.dest.resources ++ [tid] },
          emap := s.emap,
          log := s.log ++ [.copiedResource tid] }

/-- The inner component loop of `write_to_world_with` (scene.rs:246-266): run
the per-component checks of `componentStep`, aborting on their first failure,
and otherwise performing `reflect_component.copy` onto the destination
entity. -/
def writeComponentsLoop (scene : SceneWorld) (reg : TypeRegistry) (entity : Entity) :
    List ComponentId → WriteState → Except (WriteAbort × WriteState) WriteState
  | [], s => .ok s
  | cid :: rest, s =>
    match componentStep scene reg cid with
    | .error ab => .error (ab, s)
    | .ok tid =>
      writeComponentsLoop scene reg entity rest
        { dest := { s.dest with comps := s.dest.comps ++ [(entity, tid)] },
          emap := s.emap,
          log := s.log ++ [.copiedComponent entity tid] }

/-- The `entity_map.entry(scene_entity).or_insert_with(|| world.spawn_empty().id())`
step (scene.rs:242-245): reuse the mapped destination entity or spawn an empty
one and record the mapping. -/
def mapOrSpawn (s : WriteState) (sceneEntity : Entity) : Entity × WriteState :=
  match s.emap.lookup sceneEntity with
  | some e => (e, s)
  | none =>
    ((s.dest.spawn_empty).1,
      { dest := (s.dest.spawn_empty).2,
        emap := s.emap ++ [(sceneEntity, (s.dest.spawn_empty).1)],
        log := s.log ++ [.spawnedEmpty (s.dest.spawn_empty).1] })

/-- The per-entity loop of one archetype (scene.rs:241-267): resolve or spawn
the destination entity, then copy every component of the archetype onto it. -/
def writeEntitiesLoop (scene : SceneWorld) (reg : TypeRegistry)
    (components : List ComponentId) :
    List Entity → WriteState → Except (WriteAbort × WriteState) WriteState
  | [], s => .ok s
  | se :: rest, s =>
    match writeComponentsLoop scene reg ((mapOrSpawn s se).1) components
      ((mapOrSpawn s se).2) with
    | .error a => .error a
    | .ok s2 => writeEntitiesLoop scene reg components rest s2

/-- The archetype loop of `write_to_world_with` (scene.rs:240-268). -/
def writeArchetypesLoop (scene : SceneWorld) (reg : TypeRegistry) :
    List SceneArchetype → WriteState → Except (WriteAbort × WriteState) WriteState
  | [], s => .ok s
  | a :: rest, s =>
    match writeEntitiesLoop scene reg a.components a.entities s with
    | .error ab => .error ab
    | .ok s2 => writeArchetypesLoop scene reg rest s2

/-- The source's `Scene::write_to_world_with` (scene.rs:203-277): run the
resources loop, then the archetype loops, then the (no-op at this abstraction)
`map_all_entities` pass; return the outcome together with the destination
world as left by the in-place mutation and the ghost log of performed
writes. -/
def Scene.write_to_world_with (scene : SceneWorld) (reg : TypeRegistry) (w : DestWorld) :
    WriteOutcome × DestWorld × List WriteEvent :=
  match writeResourcesLoop scene reg scene.resources ⟨w, [], []⟩ with
  | .error (ab, s) => (abortOutcome ab, s.dest, s.log)
  | .ok s1 =>
    match writeArchetypesLoop scene reg scene.archetypes s1 with
    | .error (ab, s) => (abortOutcome ab, s.dest, s.log)
    | .ok s2 => (.ok ⟨s2.emap⟩, s2.dest, s2.log)

/-- The first abort the resources loop would raise on this id list. -/
def firstResourceAbort (scene : SceneWorld) (reg : TypeRegistry) :
    List ComponentId → Option WriteAbort
  | [] => none
  | cid :: rest =>
    match resourceStep scene reg cid with
    | .error ab => some ab
    | .ok _ => firstResourceAbort scene reg rest

/-- The first abort the component loop would raise on this id list. -/
def firstComponentAbort (scene : SceneWorld) (reg : TypeRegistry) :
    List ComponentId → Option WriteAbort
  | [] => none
  | cid :: rest =>
    match componentStep scene reg cid with
    | .error ab => some ab
    | .ok _ => firstComponentAbort scene reg rest

/-- The abort one archetype would raise: its component checks run once per
entity, so an archetype with no entities raises nothing. -/
def archetypeAbort (scene : SceneWorld) (reg : TypeRegistry) (a : SceneArchetype) :
    Option WriteAbort :=
  match a.entities with
  | [] => none
  | _ :: _ => firstComponentAbort scene reg a.components

/-- The first abort the archetype loop would raise. -/
def firstArchetypeAbort (scene : SceneWorld) (reg : TypeRegistry) :
    List SceneArchetype → Option WriteAbort
  | [] => none
  | a :: rest =>
    match archetypeAbort scene reg a with
    | some ab => some ab
    | none => firstArchetypeAbort scene reg rest

/-- The first abort the whole scene write would raise: resources first, then
the archetypes. -/
def firstAbort (scene : SceneWorld) (reg : TypeRegistry) : Option WriteAbort :=
  match firstResourceAbort scene reg scene.resources with
  | some ab => some ab
  | none => firstArchetypeAbort scene reg scene.archetypes

/-- When no resource check fails, the resources loop completes. -/
theorem writeResourcesLoop_ok (scene : SceneWorld) (reg : TypeRegistry)
    (l : List ComponentId) : ∀ s : WriteState,
    firstResourceAbort scene reg l = none →
    ∃ s', writeResourcesLoop scene reg l s = .ok s' := by
  induction l with
  | nil => intro s _; exact ⟨s, rfl⟩
  | cons cid rest ih =>
    intro s h
    simp only [firstResourceAbort] at h
    cases hc : resourceStep scene reg cid with
    | error ab => rw [hc] at h; simp at h
    | ok tid =>
      rw [hc] at h
      simp at h
      simp only [writeResourcesLoop, hc]
      exact ih _ h

/-- The resources loop aborts with exactly the first failing resource check,
carrying the state reached so far. -/
theorem writeResourcesLoop_abort (scene : SceneWorld) (reg : TypeRegistry)
    (l : List ComponentId) : ∀ (s : WriteState) (ab : WriteAbort),
    firstResourceAbort scene reg l = some ab →
    ∃ s', writeResourcesLoop scene reg l s = .error (ab, s') := by
  induction l with
  | nil => intro s ab h; simp [firstResourceAbort] at h
  | cons cid rest ih =>
    intro s ab h
    simp only [firstResourceAbort] at h
    cases hc : resourceStep scene reg cid with
    | error ab2 =>
      rw [hc] at h
      simp at h
      subst h
      exact ⟨s, by simp only [writeResourcesLoop, hc]⟩
    | ok tid =>
      rw [hc] at h
      simp at h
      obtain ⟨s', hs'⟩ := ih _ ab h
      exact ⟨s', by simp only [writeResourcesLoop, hc]; exact hs'⟩

/-- When no component check fails, the per-entity component loop completes. -/
theorem writeComponentsLoop_ok (scene : SceneWorld) (reg : TypeRegistry) (entity : Entity)
    (l : List ComponentId) : ∀ s : WriteState,
    firstComponentAbort scene reg l = none →
    ∃ s', writeComponentsLoop scene reg entity l s = .ok s' := by
  induction l with
  | nil => intro s _; exact ⟨s, rfl⟩
  | cons cid rest ih =>
    intro s h
    simp only [firstComponentAbort] at h
    cases hc : componentStep scene reg cid with
    | error ab => rw [hc] at h; simp at h
    | ok tid =>
      rw [hc] at h
      simp at h
      simp only [writeComponentsLoop, hc]
      exact ih _ h

/-- The component loop aborts with exactly the first failing component check. -/
theorem writeComponentsLoop_abort (scene : SceneWorld) (reg : TypeRegistry) (entity : Entity)
    (l : List ComponentId) : ∀ (s : WriteState) (ab : WriteAbort),
    firstComponentAbort scene reg l = some ab →
    ∃ s', writeComponentsLoop scene reg entity l s = .error (ab, s') := by
  induction l with
  | nil => intro s ab h; simp [firstComponentAbort] at h
  | cons cid rest ih =>
    intro s ab h
    simp only [firstComponentAbort] at h
    cases hc : componentStep scene reg cid with
    | error ab2 =>
      rw [hc] at h
      simp at h
      subst h
      exact ⟨s, by simp only [writeComponentsLoop, hc]⟩
    | ok tid =>
      rw [hc] at h
      simp at h
      obtain ⟨s', hs'⟩ := ih _ ab h
      exact ⟨s', by simp only [writeComponentsLoop, hc]; exact hs'⟩

/-- When no component check of the archetype fails, its entity loop
completes. -/
theorem writeEntitiesLoop_ok (scene : SceneWorld) (reg : TypeRegistry)
    (c : List ComponentId) (h : firstComponentAbort scene reg c = none)
    (ents : List Entity) : ∀ s : WriteState,
    ∃ s', writeEntitiesLoop scene reg c ents s = .ok s' := by
  induction ents with
  | nil => intro s; exact ⟨s, rfl⟩
  | cons se rest ih =>
    intro s
    obtain ⟨s2, hs2⟩ := writeComponentsLoop_ok scene reg ((mapOrSpawn s se).1) c
      ((mapOrSpawn s se).2) h
    obtain ⟨s', hs'⟩ := ih s2
    exact ⟨s', by simp only [writeEntitiesLoop, hs2]; exact hs'⟩

/-- With at least one entity, the entity loop aborts with exactly the first
failing component check of the archetype. -/
theorem writeEntitiesLoop_abort (scene : SceneWorld) (reg : TypeRegistry)
    (c : List ComponentId) (ab : WriteAbort)
    (h : firstComponentAbort scene reg c = some ab) (se : Entity) (rest : List Entity)
    (s : WriteState) :
    ∃ s', writeEntitiesLoop scene reg c (se :: rest) s = .error (ab, s') := by
  obtain ⟨s', hs'⟩ := writeComponentsLoop_abort scene reg ((mapOrSpawn s se).1) c
    ((mapOrSpawn s se).2) ab h
  exact ⟨s', by simp only [writeEntitiesLoop, hs']⟩

/-- When no archetype raises an abort, the archetype loop completes. -/
theorem writeArchetypesLoop_ok (scene : SceneWorld) (reg : TypeRegistry)
    (archs : List SceneArchetype) : ∀ s : WriteState,
    firstArchetypeAbort scene reg archs = none →
    ∃ s', writeArchetypesLoop scene reg archs s = .ok s' := by
  induction archs with
  | nil => intro s _; exact ⟨s, rfl⟩
  | cons a rest ih =>
    intro s h
    simp only [firstArchetypeAbort] at h
    cases ha : archetypeAbort scene reg a with
    | some ab => rw [ha] at h; simp at h
    | none =>
      rw [ha] at h
      simp at h
      unfold archetypeAbort at ha
      cases he : a.entities with
      | nil =>
        obtain ⟨s', hs'⟩ := ih s h
        exact ⟨s', by simp only [writeArchetypesLoop, he, writeEntitiesLoop]; exact hs'⟩
      | cons e es =>
        rw [he] at ha
        simp at ha
        obtain ⟨s2, hs2⟩ := writeEntitiesLoop_ok scene reg a.components ha (e :: es) s
        obtain ⟨s', hs'⟩ := ih s2 h
        exact ⟨s', by simp only [writeArchetypesLoop, he, hs2]; exact hs'⟩

/-- The archetype loop aborts with exactly the first archetype abort. -/
theorem writeArchetypesLoop_abort (scene : SceneWorld) (reg : TypeRegistry)
    (archs : List SceneArchetype) : ∀ (s : WriteState) (ab : WriteAbort),
    firstArchetypeAbort scene reg archs = some ab →
    ∃ s', writeArchetypesLoop scene reg archs s = .error (ab, s') := by
  induction archs with
  | nil => intro s ab h; simp [firstArchetypeAbort] at h
  | cons a rest ih =>
    intro s ab h
    simp only [firstArchetypeAbort] at h
    cases ha : archetypeAbort scene reg a with
    | some ab2 =>
      rw [ha] at h
      simp at h
      subst h
      unfold archetypeAbort at ha
      cases he : a.entities with
      | nil => rw [he] at ha; simp at ha
      | cons e es =>
        rw [he] at ha
        simp at ha
        obtain ⟨s', hs'⟩ := writeEntitiesLoop_abort scene reg a.components ab2 ha e es s
        exact ⟨s', by simp only [writeArchetypesLoop, he, hs']⟩
    | none =>
      rw [ha] at h
      simp at h
      unfold archetypeAbort at ha
      cases he : a.entities with
      | nil =>
        obtain ⟨s', hs'⟩ := ih s ab h
        exact ⟨s', by simp only [writeArchetypesLoop, he, writeEntitiesLoop]; exact hs'⟩
      | cons e es =>
        rw [he] at ha
        simp at ha
        obtain ⟨s2, hs2⟩ := writeEntitiesLoop_ok scene reg a.components ha (e :: es) s
        obtain ⟨s', hs'⟩ := ih s2 ab h
        exact ⟨s', by simp only [writeArchetypesLoop, he, hs2]; exact hs'⟩

/-- The outcome of the scene write is decided by the first failing check:
`abortOutcome` of it when one exists, success otherwise. -/
theorem scene_write_outcome (scene : SceneWorld) (reg : TypeRegistry) (w : DestWorld) :
    (∀ ab, firstAbort scene reg = some ab →
      (Scene.write_to_world_with scene reg w).1 = abortOutcome ab) ∧
    (firstAbort scene reg = none →
      ∃ info, (Scene.write_to_world_with scene reg w).1 = .ok info) := by
  unfold firstAbort
  cases hr : firstResourceAbort scene reg scene.resources with
  | some ab0 =>
    obtain ⟨s', hs'⟩ := writeResourcesLoop_abort scene reg scene.resources ⟨w, [], []⟩ ab0 hr
    constructor
    · intro ab h
      simp at h
      subst h
      simp [Scene.write_to_world_with, hs']
    · intro h
      simp at h
  | none =>
    obtain ⟨s1, hs1⟩ := writeResourcesLoop_ok scene reg scene.resources ⟨w, [], []⟩ hr
    cases harch : firstArchetypeAbort scene reg scene.archetypes with
    | some ab0 =>
      obtain ⟨s', hs'⟩ := writeArchetypesLoop_abort scene reg scene.archetypes s1 ab0 harch
      constructor
      · intro ab h
        simp at h
        subst h
        simp [Scene.write_to_world_with, hs1, hs']
      · intro h
        simp at h
    | none =>
      obtain ⟨s2, hs2⟩ := writeArchetypesLoop_ok scene reg scene.archetypes s1 harch
      constructor
      · intro ab h
        simp at h
      · intro h
        exact ⟨⟨s2.emap⟩, by simp [Scene.write_to_world_with, hs1, hs2]⟩

/-- A raised resource abort comes from a member of the resource list whose
check fails with exactly that abort. -/
theorem firstResourceAbort_mem (scene : SceneWorld) (reg : TypeRegistry)
    (l : List ComponentId) : ∀ ab, firstResourceAbort scene reg l = some ab →
    ∃ cid ∈ l, resourceStep scene reg cid = .error ab := by
  induction l with
  | nil => intro ab h; simp [firstResourceAbort] at h
  | cons cid rest ih =>
    intro ab h
    simp only [firstResourceAbort] at h
    cases hc : resourceStep scene reg cid with
    | error ab2 =>
      rw [hc] at h
      simp at h
      subst h
      exact ⟨cid, List.mem_cons_self _ _, hc⟩
    | ok tid =>
      rw [hc] at h
      simp at h
      obtain ⟨cid2, hm, hs⟩ := ih ab h
      exact ⟨cid2, List.mem_cons_of_mem _ hm, hs⟩

/-- A raised component abort comes from a member of the component list whose
check fails with exactly that abort. -/
theorem firstComponentAbort_mem (scene : SceneWorld) (reg : TypeRegistry)
    (l : List ComponentId) : ∀ ab, firstComponentAbort scene reg l = some ab →
    ∃ cid ∈ l, componentStep scene reg cid = .error ab := by
  induction l with
  | nil => intro ab h; simp [firstComponentAbort] at h
  | cons cid rest ih =>
    intro ab h
    simp only [firstComponentAbort] at h
    cases hc : componentStep scene reg cid with
    | error ab2 =>
      rw [hc] at h
      simp at h
      subst h
      exact ⟨cid, List.mem_cons_self _ _, hc⟩
    | ok tid =>
      rw [hc] at h
      simp at h
      obtain ⟨cid2, hm, hs⟩ := ih ab h
      exact ⟨cid2, List.mem_cons_of_mem _ hm, hs⟩

/-- A raised archetype abort comes from a member archetype with at least one
entity whose component scan fails with exactly that abort. -/
theorem firstArchetypeAbort_mem (scene : SceneWorld) (reg : TypeRegistry)
    (archs : List SceneArchetype) : ∀ ab, firstArchetypeAbort scene reg archs = some ab →
    ∃ a ∈ archs, a.entities ≠ [] ∧ firstComponentAbort scene reg a.components = some ab := by
  induction archs with
  | nil => intro ab h; simp [firstArchetypeAbort] at h
  | cons a rest ih =>
    intro ab h
    simp only [firstArchetypeAbort] at h
    cases ha : archetypeAbort scene reg a with
    | some ab2 =>
      rw [ha] at h
      simp at h
      subst h
      unfold archetypeAbort at ha
      cases he : a.entities with
      | nil => rw [he] at ha; simp at ha
      | cons e es =>
        rw [he] at ha
        simp at ha
        exact ⟨a, List.mem_cons_self _ _, by simp [he], ha⟩
    | none =>
      rw [ha] at h
      simp at h
      obtain ⟨a2, hm, hne, hca⟩ := ih ab h
      exact ⟨a2, List.mem_cons_of_mem _ hm, hne, hca⟩

/-- Inversion of a typed error raised by a resource check: either the type was
absent from the registry (`unregisteredType`) or present without the resource
capability (`unregisteredResource`), in both cases named after the component
info. -/
theorem resourceStep_err_cases (scene : SceneWorld) (reg : TypeRegistry)
    (cid : ComponentId) (e : SceneSpawnError)
    (h : resourceStep scene reg cid = .error (.err e)) :
    ∃ info, scene.get_info cid = some info ∧
      ((∃ tid, info.type_id = some tid ∧ reg.get tid = none ∧
          e = .unregisteredType info.name) ∨
       (∃ tid r, info.type_id = some tid ∧ reg.get tid = some r ∧
          r.hasReflectResource = false ∧ e = .unregisteredResource info.name)) := by
  unfold resourceStep at h
  cases hi : scene.get_info cid with
  | none => rw [hi] at h; simp at h
  | some info =>
    rw [hi] at h
    simp only at h
    cases ht : info.type_id with
    | none => rw [ht] at h; simp at h
    | some tid =>
      rw [ht] at h
      simp only at h
      cases hg : reg.get tid with
      | none =>
        rw [hg] at h
        simp at h
        exact ⟨info, rfl, .inl ⟨tid, ht, hg, h.symm⟩⟩
      | some r =>
        rw [hg] at h
        simp only at h
        cases hrr : r.hasReflectResource with
        | true => rw [hrr] at h; simp at h
        | false =>
          rw [hrr] at h
          simp at h
          exact ⟨info, rfl, .inr ⟨tid, r, ht, hg, hrr, h.symm⟩⟩

/-- Inversion of a typed error raised by a component check: either the type
was absent from the registry (`unregisteredType`) or present without the
component capability (`unregisteredComponent`). -/
theorem componentStep_err_cases (scene : SceneWorld) (reg : TypeRegistry)
    (cid : ComponentId) (e : SceneSpawnError)
    (h : componentStep scene reg cid = .error (.err e)) :
    ∃ info, scene.get_info cid = some info ∧
      ((∃ tid, info.type_id = some tid ∧ reg.get tid = none ∧
          e = .unregisteredType info.name) ∨
       (∃ tid r, info.type_id = some tid ∧ reg.get tid = some r ∧
          r.hasReflectComponent = false ∧ e = .unregisteredComponent info.name)) := by
  unfold componentStep at h
  cases hi : scene.get_info cid with
  | none => rw [hi] at h; simp at h
  | some info =>
    rw [hi] at h
    simp only at h
    cases ht : info.type_id with
    | none => rw [ht] at h; simp at h
    | some tid =>
      rw [ht] at h
      simp only at h
      cases hg : reg.get tid with
      | none =>
        rw [hg] at h
        simp at h
        exact ⟨info, rfl, .inl ⟨tid, ht, hg, h.symm⟩⟩
      | some r =>
        rw [hg] at h
        simp only at h
        cases hrr : r.hasReflectComponent with
        | true => rw [hrr] at h; simp at h
        | false =>
          rw [hrr] at h
          simp at h
          exact ⟨info, rfl, .inr ⟨tid, r, ht, hg, hrr, h.symm⟩⟩

/-- A typed error returned by the scene write is exactly the first failing
check. -/
theorem write_err_inv (scene : SceneWorld) (reg : TypeRegistry) (w : DestWorld)
    (e : SceneSpawnError)
    (h : (Scene.write_to_world_with scene reg w).1 = .err e) :
    firstAbort scene reg = some (.err e) := by
  obtain ⟨h1, h2⟩ := scene_write_outcome scene reg w
  cases hfa : firstAbort scene reg with
  | none =>
    obtain ⟨info, hinfo⟩ := h2 hfa
    rw [h] at hinfo
    exact absurd hinfo (by simp)
  | some ab =>
    have h3 := h1 ab hfa
    rw [h] at h3
    cases ab with
    | err e2 =>
      simp [abortOutcome] at h3
      rw [h3]
    | panicked => simp [abortOutcome] at h3

/-- When every resource check succeeds, the resource scan raises nothing. -/
theorem firstResourceAbort_none (scene : SceneWorld) (reg : TypeRegistry)
    (l : List ComponentId)
    (h : ∀ cid ∈ l, stepOk (resourceStep scene reg cid) = true) :
    firstResourceAbort scene reg l = none := by
  induction l with
  | nil => rfl
  | cons cid rest ih =>
    have h1 := h cid (List.mem_cons_self _ _)
    simp only [firstResourceAbort]
    cases hc : resourceStep scene reg cid with
    | error ab => rw [hc] at h1; simp [stepOk] at h1
    | ok tid => exact ih (fun c hm => h c (List.mem_cons_of_mem _ hm))

/-- When every component check succeeds, the component scan raises nothing. -/
theorem firstComponentAbort_none (scene : SceneWorld) (reg : TypeRegistry)
    (l : List ComponentId)
    (h : ∀ cid ∈ l, stepOk (componentStep scene reg cid) = true) :
    firstComponentAbort scene reg l = none := by
  induction l with
  | nil => rfl
  | cons cid rest ih =>
    have h1 := h cid (List.mem_cons_self _ _)
    simp only [firstComponentAbort]
    cases hc : componentStep scene reg cid with
    | error ab => rw [hc] at h1; simp [stepOk] at h1
    | ok tid => exact ih (fun c hm => h c (List.mem_cons_of_mem _ hm))

/-- When every component check of every archetype succeeds, the archetype scan
raises nothing. -/
theorem firstArchetypeAbort_none (scene : SceneWorld) (reg : TypeRegistry)
    (archs : List SceneArchetype)
    (h : ∀ a ∈ archs, ∀ cid ∈ a.components, stepOk (componentStep scene reg cid) = true) :
    firstArchetypeAbort scene reg archs = none := by
  induction archs with
  | nil => rfl
  | cons a rest ih =>
    simp only [firstArchetypeAbort]
    have ha : archetypeAbort scene reg a = none := by
      unfold archetypeAbort
      cases he : a.entities with
      | nil => rfl
      | cons e es =>
        exact firstComponentAbort_none scene reg a.components (h a (List.mem_cons_self _ _))
    rw [ha]
    exact ih (fun a2 hm cid hcm => h a2 (List.mem_cons_of_mem _ hm) cid hcm)

/-- C7: the scene write surfaces external-type-system failures as typed
errors: `UnregisteredType` is returned only for a type encountered in the
source world (a resource or an archetype component) that is missing from the
type registry, named after it; `UnregisteredComponent` only for an encountered
archetype component whose registration lacks the `ReflectComponent`
capability; `UnregisteredResource` only for a resource whose registration
lacks the `ReflectResource` capability; and when every encountered lookup
succeeds the operation completes, so each such error aborts the operation and
is propagated to the caller. -/
theorem c7_scene_write_typed_errors (scene : SceneWorld) (reg : TypeRegistry) (w : DestWorld) :
    (∀ n, (Scene.write_to_world_with scene reg w).1 = .err (.unregisteredType n) →
      ∃ cid, (cid ∈ scene.resources ∨ ∃ a ∈ scene.archetypes, cid ∈ a.components) ∧
        ∃ info tid, scene.get_info cid = some info ∧ info.name = n ∧
          info.type_id = some tid ∧ reg.get tid = none) ∧
    (∀ n, (Scene.write_to_world_with scene reg w).1 = .err (.unregisteredComponent n) →
      ∃ a ∈ scene.archetypes, a.entities ≠ [] ∧ ∃ cid ∈ a.components, ∃ info tid r,
        scene.get_info cid = some info ∧ info.name = n ∧ info.type_id = some tid ∧
        reg.get tid = some r ∧ r.hasReflectComponent = false) ∧
    (∀ n, (Scene.write_to_world_with scene reg w).1 = .err (.unregisteredResource n) →
      ∃ cid ∈ scene.resources, ∃ info tid r,
        scene.get_info cid = some info ∧ info.name = n ∧ info.type_id = some tid ∧
        reg.get tid = some r ∧ r.hasReflectResource = false) ∧
    ((∀ cid ∈ scene.resources, stepOk (resourceStep scene reg cid) = true) →
     (∀ a ∈ scene.archetypes, ∀ cid ∈ a.components,
        stepOk (componentStep scene reg cid) = true) →
     ∃ info, (Scene.write_to_world_with scene reg w).1 = .ok info) := by
  refine ⟨?_, ?_, ?_, ?_⟩
  · intro n h
    have hfa := write_err_inv scene reg w _ h
    unfold firstAbort at hfa
    cases hr : firstResourceAbort scene reg scene.resources with
    | some ab =>
      rw [hr] at hfa
      simp at hfa
      subst hfa
      obtain ⟨cid, hm, hstep⟩ := firstResourceAbort_mem scene reg scene.resources _ hr
      obtain ⟨info, hi, hcase⟩ := resourceStep_err_cases scene reg cid _ hstep
      cases hcase with
      | inl hc =>
        obtain ⟨tid, ht, hg, he⟩ := hc
        injection he with hn
        exact ⟨cid, .inl hm, info, tid, hi, hn.symm, ht, hg⟩
      | inr hc =>
        obtain ⟨_, _, _, _, _, he⟩ := hc
        exact absurd he (by simp)
    | none =>
      rw [hr] at hfa
      simp at hfa
      obtain ⟨a, ham, hane, hcab⟩ := firstArchetypeAbort_mem scene reg scene.archetypes _ hfa
      obtain ⟨cid, hcm, hstep⟩ := firstComponentAbort_mem scene reg a.components _ hcab
      obtain ⟨info, hi, hcase⟩ := componentStep_err_cases scene reg cid _ hstep
      cases hcase with
      | inl hc =>
        obtain ⟨tid, ht, hg, he⟩ := hc
        injection he with hn
        exact ⟨cid, .inr ⟨a, ham, hcm⟩, info, tid, hi, hn.symm, ht, hg⟩
      | inr hc =>
        obtain ⟨_, _, _, _, _, he⟩ := hc
        exact absurd he (by simp)
  · intro n h
    have hfa := write_err_inv scene reg w _ h
    unfold firstAbort at hfa
    cases hr : firstResourceAbort scene reg scene.resources with
    | some ab =>
      rw [hr] at hfa
      simp at hfa
      subst hfa
      obtain ⟨cid, hm, hstep⟩ := firstResourceAbort_mem scene reg scene.resources _ hr
      obtain ⟨info, hi, hcase⟩ := resourceStep_err_cases scene reg cid _ hstep
      cases hcase with
      | inl hc =>
        obtain ⟨_, _, _, he⟩ := hc
        exact absurd he (by simp)
      | inr hc =>
        obtain ⟨_, _, _, _, _, he⟩ := hc
        exact absurd he (by simp)
    | none =>
      rw [hr] at hfa
      simp at hfa
      obtain ⟨a, ham, hane, hcab⟩ := firstArchetypeAbort_mem scene reg scene.archetypes _ hfa
      obtain ⟨cid, hcm, hstep⟩ := firstComponentAbort_mem scene reg a.components _ hcab
      obtain ⟨info, hi, hcase⟩ := componentStep_err_cases scene reg cid _ hstep
      cases hcase with
      | inl hc =>
        obtain ⟨_, _, _, he⟩ := hc
        exact absurd he (by simp)
      | inr hc =>
        obtain ⟨tid, r, ht, hg, hrr, he⟩ := hc
        injection he with hn
        exact ⟨a, ham, hane, cid, hcm, info, tid, r, hi, hn.symm, ht, hg, hrr⟩
  · intro n h
    have hfa := write_err_inv scene reg w _ h
    unfold firstAbort at hfa
    cases hr : firstResourceAbort scene reg scene.resources with
    | some ab =>
      rw [hr] at hfa
      simp at hfa
      subst hfa
      obtain ⟨cid, hm, hstep⟩ := firstResourceAbort_mem scene reg scene.resources _ hr
      obtain ⟨info, hi, hcase⟩ := resourceStep_err_cases scene reg cid _ hstep
      cases hcase with
      | inl hc =>
        obtain ⟨_, _, _, he⟩ := hc
        exact absurd he (by simp)
      | inr hc =>
        obtain ⟨tid, r, ht, hg, hrr, he⟩ := hc
        injection he with hn
        exact ⟨cid, hm, info, tid, r, hi, hn.symm, ht, hg, hrr⟩
    | none =>
      rw [hr] at hfa
      simp at hfa
      obtain ⟨a, ham, hane, hcab⟩ := firstArchetypeAbort_mem scene reg scene.archetypes _ hfa
      obtain ⟨cid, hcm, hstep⟩ := firstComponentAbort_mem scene reg a.components _ hcab
      obtain ⟨info, hi, hcase⟩ := componentStep_err_cases scene reg cid _ hstep
      cases hcase with
      | inl hc =>
        obtain ⟨_, _, _, he⟩ := hc
        exact absurd he (by simp)
      | inr hc =>
        obtain ⟨_, _, _, _, _, he⟩ := hc
        exact absurd he (by simp)
  · intro hres hcomp
    have h1 := firstResourceAbort_none scene reg scene.resources hres
    have h2 := firstArchetypeAbort_none scene reg scene.archetypes hcomp
    have hfa : firstAbort scene reg = none := by
      unfold firstAbort
      rw [h1]
      exact h2
    exact (scene_write_outcome scene reg w).2 hfa

/-- Concrete scene for the C7 witness: one resource of type name `res.A`
(type id 10) and one single-entity archetype with one component of type name
`comp.B` (type id 20). -/
def c7Scene : SceneWorld :=
  ⟨[1], [⟨[⟨5, 0⟩], [2]⟩], [(1, ⟨"res.A", some 10⟩), (2, ⟨"comp.B", some 20⟩)]⟩

/-- A registry knowing both types with the right capabilities. -/
def c7RegGood : TypeRegistry := ⟨[(10, ⟨false, true⟩), (20, ⟨true, false⟩)]⟩

/-- A registry missing the component's type entirely. -/
def c7RegBad : TypeRegistry := ⟨[(10, ⟨false, true⟩)]⟩

/-- Witness for C7 at concrete inputs: against the registry missing `comp.B`
the write returns `UnregisteredType` naming it and the theorem produces the
failing lookup; against the complete registry the write succeeds. -/
theorem c7_scene_write_typed_errors_witness :
    (∃ cid, (cid ∈ c7Scene.resources ∨ ∃ a ∈ c7Scene.archetypes, cid ∈ a.components) ∧
      ∃ info tid, c7Scene.get_info cid = some info ∧ info.name = "comp.B" ∧
        info.type_id = some tid ∧ c7RegBad.get tid = none) ∧
    (∃ info, (Scene.write_to_world_with c7Scene c7RegGood ⟨0, [], [], []⟩).1 = .ok info) := by
  constructor
  · exact (c7_scene_write_typed_errors c7Scene c7RegBad ⟨0, [], [], []⟩).1 "comp.B" (by decide)
  · exact (c7_scene_write_typed_errors c7Scene c7RegGood ⟨0, [], [], []⟩).2.2.2
      (by decide) (by decide)

/-- What a recorded write means for a destination world: the spawned entity
exists in it, the copied resource is present, the copied component slot is
present. -/
def WriteEvent.appliedIn (ev : WriteEvent) (w : DestWorld) : Prop :=
  match ev with
  | .spawnedEmpty e => e ∈ w.entities
  | .copiedResource t => t ∈ w.resources
  | .copiedComponent e t => (e, t) ∈ w.comps

/-- Containment of destination worlds: everything present in the first is
still present in the second (nothing was rolled back). -/
def DestWorld.le (w1 w2 : DestWorld) : Prop :=
  (∀ e ∈ w1.entities, e ∈ w2.entities) ∧ (∀ t ∈ w1.resources, t ∈ w2.resources) ∧
  (∀ p ∈ w1.comps, p ∈ w2.comps)

/-- Containment is reflexive. -/
theorem DestWorld.le_refl (w : DestWorld) : w.le w :=
  ⟨fun _ he => he, fun _ ht => ht, fun _ hp => hp⟩

/-- Containment is transitive. -/
theorem DestWorld.le_trans {w1 w2 w3 : DestWorld} (h1 : w1.le w2) (h2 : w2.le w3) :
    w1.le w3 :=
  ⟨fun e he => h2.1 e (h1.1 e he), fun t ht => h2.2.1 t (h1.2.1 t ht),
   fun p hp => h2.2.2 p (h1.2.2 p hp)⟩

/-- An applied write stays applied in any containing world. -/
theorem WriteEvent.appliedIn_mono {ev : WriteEvent} {w1 w2 : DestWorld}
    (h : ev.appliedIn w1) (hle : w1.le w2) : ev.appliedIn w2 := by
  cases ev with
  | spawnedEmpty e => exact hle.1 e h
  | copiedResource t => exact hle.2.1 t h
  | copiedComponent e t => exact hle.2.2 (e, t) h

/-- A write state is coherent when every logged write is visible in its
destination world. -/
def WriteState.coherent (s : WriteState) : Prop :=
  ∀ ev ∈ s.log, ev.appliedIn s.dest

/-- Going from one write state to a later one: the destination world only
grows and coherence is preserved. -/
def WriteState.advances (s s' : WriteState) : Prop :=
  s.dest.le s'.dest ∧ (s.coherent → s'.coherent)

/-- Advancing is reflexive. -/
theorem WriteState.advances_refl (s : WriteState) : s.advances s :=
  ⟨DestWorld.le_refl s.dest, fun h => h⟩

/-- Advancing is transitive. -/
theorem WriteState.advances_trans {s1 s2 s3 : WriteState} (h1 : s1.advances s2)
    (h2 : s2.advances s3) : s1.advances s3 :=
  ⟨DestWorld.le_trans h1.1 h2.1, fun h => h2.2 (h1.2 h)⟩

/-- Copying one resource advances the state. -/
theorem advances_addResource (s : WriteState) (tid : TypeId) :
    s.advances
      { dest := { s.dest with resources := s.dest.resources ++ [tid] },
        emap := s.emap, log := s.log ++ [.copiedResource tid] } := by
  have hle : s.dest.le { s.dest with resources := s.dest.resources ++ [tid] } :=
    ⟨fun e he => he, fun t ht => List.mem_append_left _ ht, fun p hp => hp⟩
  refine ⟨hle, ?_⟩
  intro hc ev hev
  rcases List.mem_append.mp hev with hm | hm
  · exact WriteEvent.appliedIn_mono (hc ev hm) hle
  · simp at hm
    subst hm
    simp [WriteEvent.appliedIn]

/-- Copying one component advances the state. -/
theorem advances_addComponent (s : WriteState) (entity : Entity) (tid : TypeId) :
    s.advances
      { dest := { s.dest with comps := s.dest.comps ++ [(entity, tid)] },
        emap := s.emap, log := s.log ++ [.copiedComponent entity tid] } := by
  have hle : s.dest.le { s.dest with comps := s.dest.comps ++ [(entity, tid)] } :=
    ⟨fun e he => he, fun t ht => ht, fun p hp => List.mem_append_left _ hp⟩
  refine ⟨hle, ?_⟩
  intro hc ev hev
  rcases List.mem_append.mp hev with hm | hm
  · exact WriteEvent.appliedIn_mono (hc ev hm) hle
  · simp at hm
    subst hm
    simp [WriteEvent.appliedIn]

/-- Resolving or spawning an entity advances the state. -/
theorem advances_mapOrSpawn (s : WriteState) (se : Entity) :
    s.advances (mapOrSpawn s se).2 := by
  unfold mapOrSpawn
  cases hl : s.emap.lookup se with
  | some e => exact WriteState.advances_refl s
  | none =>
    have hle : s.dest.le (s.dest.spawn_empty).2 := by
      refine ⟨fun e he => ?_, fun t ht => ht, fun p hp => hp⟩
      simp [DestWorld.spawn_empty]
      exact Or.inl he
    refine ⟨hle, ?_⟩
    intro hc ev hev
    rcases List.mem_append.mp hev with hm | hm
    · exact WriteEvent.appliedIn_mono (hc ev hm) hle
    · simp at hm
      subst hm
      simp [WriteEvent.appliedIn, DestWorld.spawn_empty]

/-- The state carried out of a loop, whether it completed or aborted. -/
def exitState (r : Except (WriteAbort × WriteState) WriteState) : WriteState :=
  match r with
  | .ok s => s
  | .error p => p.2

/-- The resources loop only advances the state, however it exits. -/
theorem writeResourcesLoop_advances (scene : SceneWorld) (reg : TypeRegistry)
    (l : List ComponentId) : ∀ s : WriteState,
    s.advances (exitState (writeResourcesLoop scene reg l s)) := by
  induction l with
  | nil => intro s; exact WriteState.advances_refl s
  | cons cid rest ih =>
    intro s
    simp only [writeResourcesLoop]
    cases hc : resourceStep scene reg cid with
    | error ab => exact WriteState.advances_refl s
    | ok tid => exact WriteState.advances_trans (advances_addResource s tid) (ih _)

/-- The component loop only advances the state, however it exits. -/
theorem writeComponentsLoop_advances (scene : SceneWorld) (reg : TypeRegistry)
    (entity : Entity) (l : List ComponentId) : ∀ s : WriteState,
    s.advances (exitState (writeComponentsLoop scene reg entity l s)) := by
  induction l with
  | nil => intro s; exact WriteState.advances_refl s
  | cons cid rest ih =>
    intro s
    simp only [writeComponentsLoop]
    cases hc : componentStep scene reg cid with
    | error ab => exact WriteState.advances_refl s
    | ok tid => exact WriteState.advances_trans (advances_addComponent s entity tid) (ih _)

/-- The per-entity loop only advances the state, however it exits. -/
theorem writeEntitiesLoop_advances (scene : SceneWorld) (reg : TypeRegistry)
    (c : List ComponentId) (ents : List Entity) : ∀ s : WriteState,
    s.advances (exitState (writeEntitiesLoop scene reg c ents s)) := by
  induction ents with
  | nil => intro s; exact WriteState.advances_refl s
  | cons se rest ih =>
    intro s
    simp only [writeEntitiesLoop]
    have h1 := advances_mapOrSpawn s se
    have h2 := writeComponentsLoop_advances scene reg ((mapOrSpawn s se).1) c
      ((mapOrSpawn s se).2)
    cases hc : writeComponentsLoop scene reg ((mapOrSpawn s se).1) c ((mapOrSpawn s se).2) with
    | error a =>
      rw [hc] at h2
      exact WriteState.advances_trans h1 h2
    | ok s2 =>
      rw [hc] at h2
      exact WriteState.advances_trans h1 (WriteState.advances_trans h2 (ih s2))

/-- The archetype loop only advances the state, however it exits. -/
theorem writeArchetypesLoop_advances (scene : SceneWorld) (reg : TypeRegistry)
    (archs : List SceneArchetype) : ∀ s : WriteState,
    s.advances (exitState (writeArchetypesLoop scene reg archs s)) := by
  induction archs with
  | nil => intro s; exact WriteState.advances_refl s
  | cons a rest ih =>
    intro s
    simp only [writeArchetypesLoop]
    have h1 := writeEntitiesLoop_advances scene reg a.components a.entities s
    cases hc : writeEntitiesLoop scene reg a.components a.entities s with
    | error ab =>
      rw [hc] at h1
      exact h1
    | ok s2 =>
      rw [hc] at h1
      exact WriteState.advances_trans h1 (ih s2)

/-- C10: the scene write is not atomic on error — when it returns a typed
error partway through, the destination world keeps everything it already had
(nothing is rolled back) and every write performed before the failing lookup
(entity spawned, resource copied, component copied, as recorded in the ghost
log) is still present in the returned destination world. -/
theorem c10_scene_write_not_atomic (scene : SceneWorld) (reg : TypeRegistry)
    (w : DestWorld) (e : SceneSpawnError) (w' : DestWorld) (log : List WriteEvent)
    (h : Scene.write_to_world_with scene reg w = (.err e, w', log)) :
    w.le w' ∧ ∀ ev ∈ log, ev.appliedIn w' := by
  have hres := writeResourcesLoop_advances scene reg scene.resources ⟨w, [], []⟩
  cases hr : writeResourcesLoop scene reg scene.resources ⟨w, [], []⟩ with
  | error p =>
    obtain ⟨ab, s⟩ := p
    rw [hr] at hres
    simp only [Scene.write_to_world_with, hr, Prod.mk.injEq] at h
    obtain ⟨hout, hw, hlog⟩ := h
    subst hw
    subst hlog
    exact ⟨hres.1, hres.2 (fun ev hev => absurd hev (List.not_mem_nil ev))⟩
  | ok s1 =>
    rw [hr] at hres
    have harch := writeArchetypesLoop_advances scene reg scene.archetypes s1
    cases ha : writeArchetypesLoop scene reg scene.archetypes s1 with
    | error p =>
      obtain ⟨ab, s⟩ := p
      rw [ha] at harch
      simp only [Scene.write_to_world_with, hr, ha, Prod.mk.injEq] at h
      obtain ⟨hout, hw, hlog⟩ := h
      subst hw
      subst hlog
      have hadv := WriteState.advances_trans hres harch
      exact ⟨hadv.1, hadv.2 (fun ev hev => absurd hev (List.not_mem_nil ev))⟩
    | ok s2 =>
      simp only [Scene.write_to_world_with, hr, ha, Prod.mk.injEq] at h
      exact absurd h.1 (by simp)

/-- Concrete scene for the C10 witness: no resources, one archetype with one
entity and two components; the first component's type is registered with the
component capability, the second's type is missing from the registry. -/
def c10Scene : SceneWorld :=
  ⟨[], [⟨[⟨7, 0⟩], [1, 2]⟩], [(1, ⟨"comp.A", some 10⟩), (2, ⟨"comp.B", some 20⟩)]⟩

/-- Registry for the C10 witness, missing the second component's type. -/
def c10Reg : TypeRegistry := ⟨[(10, ⟨true, false⟩)]⟩

/-- Destination world left behind by the aborted C10 witness write. -/
def c10Dest : DestWorld := ⟨1, [⟨0, 0⟩], [], [(⟨0, 0⟩, 10)]⟩

/-- Witness for C10 at a concrete aborted write: the entity spawned and the
component copied before the failing lookup are still present in the
destination world returned with the error. -/
theorem c10_scene_write_not_atomic_witness :
    (⟨0, [], [], []⟩ : DestWorld).le c10Dest ∧
    ∀ ev ∈ [WriteEvent.spawnedEmpty ⟨0, 0⟩, WriteEvent.copiedComponent ⟨0, 0⟩ 10],
      ev.appliedIn c10Dest :=
  c10_scene_write_not_atomic c10Scene c10Reg ⟨0, [], [], []⟩
    (.unregisteredType "comp.B") c10Dest
    [.spawnedEmpty ⟨0, 0⟩, .copiedComponent ⟨0, 0⟩ 10] (by decide)
